import Mathlib

/-!
Shallow embedding of the chord-dht repository (src/chord/helpers.py,
src/chord/storage.py, src/chord/node.py) and proofs about the claims of
its specification.

Machine words are modelled as `Nat` reduced modulo `2 ^ 32` where the
Python code relies on 32-bit semantics (inside the hash primitives);
Python integers elsewhere are `Int`/`Nat` as appropriate.
-/

set_option maxRecDepth 100000

/-- Truncation to 32 bits, used by the hash primitives. -/
def w32 (x : Nat) : Nat := x % 4294967296

/-- Rotate a 32-bit word left (`n` is in 1..31 at use sites). -/
def rotl32 (n x : Nat) : Nat := (w32 (x <<< n)) ||| (x >>> (32 - n))

/-- Rotate a 32-bit word right. -/
def rotr32 (n x : Nat) : Nat := (x >>> n) ||| (w32 (x <<< (32 - n)))

/-- UTF-8 encoding of one character, as in Python `str.encode("utf-8")`. -/
def utf8EncodeChar (c : Char) : List Nat :=
  let n := c.toNat
  if n < 128 then [n]
  else if n < 2048 then [192 ||| (n >>> 6), 128 ||| (n &&& 63)]
  else if n < 65536 then
    [224 ||| (n >>> 12), 128 ||| ((n >>> 6) &&& 63), 128 ||| (n &&& 63)]
  else
    [240 ||| (n >>> 18), 128 ||| ((n >>> 12) &&& 63),
     128 ||| ((n >>> 6) &&& 63), 128 ||| (n &&& 63)]

/-- The UTF-8 bytes of a string (Python `s.encode("utf-8")`). -/
def strBytes (s : String) : List Nat := (s.data.map utf8EncodeChar).flatten

/-- Big-endian byte list of width `n` for the value `v`. -/
def beBytes (n v : Nat) : List Nat :=
  (List.range n).map (fun i => (v >>> (8 * (n - 1 - i))) &&& 255)

/-- Merkle-Damgard padding shared by SHA-1 and SHA-256: append `0x80`,
zero bytes to 56 mod 64, then the 64-bit big-endian bit length. -/
def mdPad (msg : List Nat) : List Nat :=
  let len := msg.length
  let zeros := (56 + 64 - (len + 1) % 64) % 64
  msg ++ [128] ++ List.replicate zeros 0 ++ beBytes 8 (8 * len)

/-- Group bytes into big-endian 32-bit words. -/
def toWords : List Nat → List Nat
  | a :: b :: c :: d :: rest =>
      ((((a <<< 8) ||| b) <<< 8 ||| c) <<< 8 ||| d) :: toWords rest
  | _ => []

/-- Split a byte list into 64-byte blocks, fuel-driven so the kernel can
evaluate it. -/
def chunk64Go : Nat → List Nat → List (List Nat)
  | 0, _ => []
  | k + 1, l => (l.take 64) :: chunk64Go k (l.drop 64)

/-- All 64-byte blocks of a (padded) byte list. -/
def chunk64 (l : List Nat) : List (List Nat) := chunk64Go (l.length / 64) l

/-- SHA-1 message-schedule extension; `acc` holds the words produced so
far, newest first. -/
def sha1ExpandGo : Nat → List Nat → List Nat
  | 0, acc => acc.reverse
  | k + 1, acc =>
      let next := rotl32 1 ((acc.getD 2 0) ^^^ (acc.getD 7 0) ^^^
                            (acc.getD 13 0) ^^^ (acc.getD 15 0))
      sha1ExpandGo k (next :: acc)

/-- The 80-word SHA-1 schedule of one 16-word block. -/
def sha1Schedule (block : List Nat) : List Nat := sha1ExpandGo 64 block.reverse

/-- SHA-1 round function. -/
def sha1F (t b c d : Nat) : Nat :=
  if t < 20 then (b &&& c) ||| ((4294967295 ^^^ b) &&& d)
  else if t < 40 then b ^^^ c ^^^ d
  else if t < 60 then (b &&& c) ||| (b &&& d) ||| (c &&& d)
  else b ^^^ c ^^^ d

/-- SHA-1 round constants. -/
def sha1K (t : Nat) : Nat :=
  if t < 20 then 1518500249
  else if t < 40 then 1859775393
  else if t < 60 then 2400959708
  else 3395469782

/-- One SHA-1 compression step over a 64-byte block. -/
def sha1Compress (hs : List Nat) (block : List Nat) : List Nat :=
  let w := sha1Schedule (toWords block)
  let h0 := hs.getD 0 0
  let h1 := hs.getD 1 0
  let h2 := hs.getD 2 0
  let h3 := hs.getD 3 0
  let h4 := hs.getD 4 0
  let st := w.enum.foldl
    (fun (st : Nat × Nat × Nat × Nat × Nat) tw =>
      let t := tw.1
      let wt := tw.2
      let a := st.1
      let b := st.2.1
      let c := st.2.2.1
      let d := st.2.2.2.1
      let e := st.2.2.2.2
      let temp := w32 (rotl32 5 a + sha1F t b c d + e + sha1K t + wt)
      (temp, a, rotl32 30 b, c, d))
    (h0, h1, h2, h3, h4)
  [w32 (h0 + st.1), w32 (h1 + st.2.1), w32 (h2 + st.2.2.1),
   w32 (h3 + st.2.2.2.1), w32 (h4 + st.2.2.2.2)]

/-- Lowercase hex digit of a value in 0..15. -/
def hexDigit (n : Nat) : Char :=
  if n < 10 then Char.ofNat (48 + n) else Char.ofNat (87 + n)

/-- Eight lowercase hex digits of a 32-bit word. -/
def wordHex (v : Nat) : String :=
  String.mk ((List.range 8).map (fun i => hexDigit ((v >>> (4 * (7 - i))) &&& 15)))

/-- SHA-1 digest of a byte list, as the lowercase hex string that Python
`hashlib.sha1(_).hexdigest()` returns. -/
def sha1Hex (msg : List Nat) : String :=
  let hs := (chunk64 (mdPad msg)).foldl sha1Compress
    [1732584193, 4023233417, 2562383102, 271733878, 3285377520]
  String.join (hs.map wordHex)

example : sha1Hex (strBytes "abc") = "a9993e364706816aba3e25717850c26c9cd0d89d" := by decide

/-- SHA-256 message-schedule extension; `acc` holds the words produced so
far, newest first. -/
def sha256ExpandGo : Nat → List Nat → List Nat
  | 0, acc => acc.reverse
  | k + 1, acc =>
      let wm2 := acc.getD 1 0
      let wm7 := acc.getD 6 0
      let wm15 := acc.getD 14 0
      let wm16 := acc.getD 15 0
      let s0 := (rotr32 7 wm15) ^^^ (rotr32 18 wm15) ^^^ (wm15 >>> 3)
      let s1 := (rotr32 17 wm2) ^^^ (rotr32 19 wm2) ^^^ (wm2 >>> 10)
      sha256ExpandGo k (w32 (wm16 + s0 + wm7 + s1) :: acc)

/-- The 64-word SHA-256 schedule of one 16-word block. -/
def sha256Schedule (block : List Nat) : List Nat := sha256ExpandGo 48 block.reverse

/-- SHA-256 round constants. -/
def sha256K : List Nat :=
  [1116352408, 1899447441, 3049323471, 3921009573, 961987163, 1508970993,
   2453635748, 2870763221, 3624381080, 310598401, 607225278, 1426881987,
   1925078388, 2162078206, 2614888103, 3248222580, 3835390401, 4022224774,
   264347078, 604807628, 770255983, 1249150122, 1555081692, 1996064986,
   2554220882, 2821834349, 2952996808, 3210313671, 3336571891, 3584528711,
   113926993, 338241895, 666307205, 773529912, 1294757372, 1396182291,
   1695183700, 1986661051, 2177026350, 2456956037, 2730485921, 2820302411,
   3259730800, 3345764771, 3516065817, 3600352804, 4094571909, 275423344,
   430227734, 506948616, 659060556, 883997877, 958139571, 1322822218,
   1537002063, 1747873779, 1955562222, 2024104815, 2227730452, 2361852424,
   2428436474, 2756734187, 3204031479, 3329325298]

/-- One SHA-256 compression step over a 64-byte block. -/
def sha256Compress (hs : List Nat) (block : List Nat) : List Nat :=
  let w := sha256Schedule (toWords block)
  let h0 := hs.getD 0 0
  let h1 := hs.getD 1 0
  let h2 := hs.getD 2 0
  let h3 := hs.getD 3 0
  let h4 := hs.getD 4 0
  let h5 := hs.getD 5 0
  let h6 := hs.getD 6 0
  let h7 := hs.getD 7 0
  let st := w.enum.foldl
    (fun (st : Nat × Nat × Nat × Nat × Nat × Nat × Nat × Nat) tw =>
      let t := tw.1
      let wt := tw.2
      let a := st.1
      let b := st.2.1
      let c := st.2.2.1
      let d := st.2.2.2.1
      let e := st.2.2.2.2.1
      let f := st.2.2.2.2.2.1
      let g := st.2.2.2.2.2.2.1
      let h := st.2.2.2.2.2.2.2
      let bsig1 := (rotr32 6 e) ^^^ (rotr32 11 e) ^^^ (rotr32 25 e)
      let ch := (e &&& f) ^^^ ((4294967295 ^^^ e) &&& g)
      let t1 := w32 (h + bsig1 + ch + sha256K.getD t 0 + wt)
      let bsig0 := (rotr32 2 a) ^^^ (rotr32 13 a) ^^^ (rotr32 22 a)
      let maj := (a &&& b) ^^^ (a &&& c) ^^^ (b &&& c)
      let t2 := w32 (bsig0 + maj)
      (w32 (t1 + t2), a, b, c, w32 (d + t1), e, f, g))
    (h0, h1, h2, h3, h4, h5, h6, h7)
  [w32 (h0 + st.1), w32 (h1 + st.2.1), w32 (h2 + st.2.2.1),
   w32 (h3 + st.2.2.2.1), w32 (h4 + st.2.2.2.2.1), w32 (h5 + st.2.2.2.2.2.1),
   w32 (h6 + st.2.2.2.2.2.2.1), w32 (h7 + st.2.2.2.2.2.2.2)]

/-- SHA-256 initial state. -/
def sha256Init : List Nat :=
  [1779033703, 3144134277, 1013904242, 2773480762, 1359893119, 2600822924,
   528734635, 1541459225]

/-- SHA-256 state words of a byte list. -/
def sha256Words (msg : List Nat) : List Nat :=
  (chunk64 (mdPad msg)).foldl sha256Compress sha256Init

/-- SHA-256 digest as 32 bytes. -/
def sha256Digest (msg : List Nat) : List Nat :=
  ((sha256Words msg).map (beBytes 4)).flatten

/-- SHA-256 digest of a byte list, as the lowercase hex string that Python
`hashlib.sha256(_).hexdigest()` returns. -/
def sha256Hex (msg : List Nat) : String :=
  String.join ((sha256Words msg).map wordHex)

/-- HMAC-SHA256 hexdigest, as Python `hmac.new(key, msg, hashlib.sha256).hexdigest()`. -/
def hmacSha256Hex (key msg : List Nat) : String :=
  let k0 := if key.length > 64 then sha256Digest key else key
  let k0 := k0 ++ List.replicate (64 - k0.length) 0
  let inner := sha256Digest ((k0.map (fun b => b ^^^ 54)) ++ msg)
  sha256Hex ((k0.map (fun b => b ^^^ 92)) ++ inner)

example : sha256Hex (strBytes "abc") =
    "ba7816bf8f01cfea414140de5dae2223b00361a396177a9cb410ff61f20015ad" := by decide

example : hmacSha256Hex (strBytes "aa") (strBytes "v") =
    "c71078e720824650befaae827e59bfff43a8c1788611fb50c94cfcaccced7bd1" := by decide

/-- Value of a single hex digit character, lowercase or uppercase (all
keys in the system are lowercase hex; other characters would raise in
Python `int(s, 16)` and are mapped to 0 here, they never occur). -/
def hexVal (c : Char) : Nat :=
  if 48 ≤ c.toNat ∧ c.toNat ≤ 57 then c.toNat - 48
  else if 97 ≤ c.toNat ∧ c.toNat ≤ 102 then c.toNat - 87
  else if 65 ≤ c.toNat ∧ c.toNat ≤ 70 then c.toNat - 55
  else 0

/-- Python `int(s, 16)` on a hex key. -/
def hexToNat (s : String) : Nat := s.data.foldl (fun acc c => 16 * acc + hexVal c) 0

/-!  helpers.py  -/

/-- Embedding of `helpers.generate_id`: the first `keysize` characters of the SHA-1
hexdigest of the UTF-8 encoding of the key. -/
def generate_id (key : String) (keysize : Nat) : String :=
  (sha1Hex (strBytes key)).take keysize

/-- A node record as exchanged between peers (the dict built by
`helpers.gen_finger`): address, hex id, numeric id. -/
structure Finger where
  addr : String
  id : String
  numeric_id : Int
deriving DecidableEq, Repr

/-- Embedding of `helpers.gen_finger(addr, ring_sz, keysize)`. -/
def gen_finger (addr : String) (ring_sz : Int) (keysize : Nat) : Finger :=
  let i := generate_id addr keysize
  { addr := addr, id := i, numeric_id := (hexToNat i : Int) % ring_sz }

/-- Embedding of `helpers.between(_id, left, right, inclusive_left, inclusive_right,
ring_sz)`, translated statement by statement.  The two boundary
adjustments are guarded by the single test `left != right` on the
original arguments; `%` is Python `%`, which agrees with `Int.emod` for a
positive modulus. -/
def between (i left right : Int) (inclusive_left inclusive_right : Bool)
    (ring_sz : Int) : Bool :=
  let l := if left ≠ right ∧ inclusive_left then (left - 1 + ring_sz) % ring_sz else left
  let r := if left ≠ right ∧ inclusive_right then (right + 1) % ring_sz else right
  if l < r then l < i ∧ i < r
  else i > max l r ∨ i < min l r

example : generate_id "abcd" 4 = "81fe" := by decide
example : between 3 1 5 false true 256 = true := by decide
example : between 5 5 5 true true 256 = false := by decide

/-!  storage.py

The `diskcache.Cache` kept by `Storage` is modelled as a list of entries;
each entry stores the value, the tag put alongside it, and the absolute
expiry instant (diskcache stores `now + ttl` when `set` is given
`expire=ttl`, and `get` treats an entry whose deadline has passed as
missing).  The wall clock is passed explicitly. -/

/-- One stored cache entry: `key -> (value, tag, expiry)`. -/
structure StoreEntry where
  key : String
  value : String
  tag : String
  expire : Int
deriving DecidableEq, Repr

/-- Embedding of `diskcache.Cache.get(key, tag=True)`: the first entry with this key,
provided it is unexpired; `(None, None)` (here `none`) otherwise. -/
def cacheGet (store : List StoreEntry) (now : Int) (key : String) :
    Option (String × String) :=
  match store.find? (fun e => e.key = key) with
  | some e => if now < e.expire then some (e.value, e.tag) else none
  | none => none

/-- Embedding of `diskcache.Cache.set(key, value, expire=ttl, tag=tag)`: replaces any
previous entry under the key. -/
def cacheSet (store : List StoreEntry) (now : Int) (key value tag : String)
    (ttl : Int) : List StoreEntry :=
  ⟨key, value, tag, now + ttl⟩ :: store.filter (fun e => e.key ≠ key)

/-- Embedding of `diskcache.Cache.delete(key)` (the body of `Storage._del_key`). -/
def cacheDelete (store : List StoreEntry) (key : String) : List StoreEntry :=
  store.filter (fun e => e.key ≠ key)

namespace Storage

/-- Embedding of `Storage.make_digest(message)`: HMAC-SHA256 of the message under the
process secret (`SEC_KEY` or, by default, the hex id of the node),
returned as a hexdigest. -/
def make_digest (secret : String) (message : String) : String :=
  hmacSha256Hex (strBytes secret) (strBytes message)

/-- Embedding of `Storage.get_key(key)`: fetch `(value, tag)` from the cache; when the
fetched value is truthy (a non-empty string) compare the tag against a
recomputed digest and reject on mismatch; otherwise return the fetched
value unchecked (`if value:` is false both for a missing entry and for
the empty string). -/
def get_key (store : List StoreEntry) (secret : String) (now : Int)
    (key : String) : Option String :=
  match cacheGet store now key with
  | none => none
  | some (value, tag) =>
      if value ≠ "" then
        if tag ≠ make_digest secret value then none else some value
      else some value

/-- Embedding of `Storage.put_key(key, value, ttl)`: store the value with its digest
as tag; returns the Bool from `Cache.set` (true) together with the new
cache contents. -/
def put_key (store : List StoreEntry) (secret : String) (now : Int)
    (key value : String) (ttl : Int) : Bool × List StoreEntry :=
  (true, cacheSet store now key value (make_digest secret value) ttl)

/-- Embedding of `Storage.del_keys(keys)`: delete each key in turn. -/
def del_keys (store : List StoreEntry) (keys : List String) : List StoreEntry :=
  keys.foldl cacheDelete store

/-- Embedding of `Storage.get_keys(left, right)`: walk the stored keys, keep those
whose numeric value lies in the open arc `(left, right)` and whose
`get_key` lookup yields a truthy value, returning the matching keys and
values in iteration order. -/
def get_keys (store : List StoreEntry) (secret : String) (now : Int)
    (ring_sz : Int) (left right : Int) : List String × List String :=
  store.foldl
    (fun acc e =>
      if between (hexToNat e.key : Int) left right false false ring_sz then
        match get_key store secret now e.key with
        | some v => if v ≠ "" then (acc.1 ++ [e.key], acc.2 ++ [v]) else acc
        | none => acc
      else acc)
    ([], [])

end Storage

/-!  node.py -/

/-- The ring state of a node that the claims below touch.  `ring_sz` is
`2 ** 16`, `key_sz` is 4, `secret` is the storage secret (`SEC_KEY` or the
hex id of the node).  The successor list is kept as node records (after
initialisation its slots hold records, not `None`). -/
structure NodeState where
  addr : String
  numeric_id : Int
  ring_sz : Int
  key_sz : Nat
  secret : String
  predecessor : Option Finger
  successor : Option Finger
  successors : List Finger
  fingers : List Finger
  store : List StoreEntry
deriving Repr

namespace Node

/-- Embedding of `Node.notify(n)`: adopt `n` as predecessor when there is none, or when
`n` lies strictly between the current predecessor and this node; nothing
else is touched. -/
def notify (st : NodeState) (n : Finger) : NodeState :=
  match st.predecessor with
  | none => { st with predecessor := some n }
  | some p =>
      if between n.numeric_id p.numeric_id st.numeric_id false false st.ring_sz then
        { st with predecessor := some n }
      else st

/-- Embedding of `Node.put_key(key, value, ttl)`: the loop `for replica in
range(self._REPLICATION_COUNT)` computes `numeric_id = int(key, 16) +
replica` (no modulus is applied in the source), routes `find_successor`
and fires `rpc_save_key` at the routed node, then appends the key to the
returned list unconditionally.  The routing and the remote save do not
influence the control flow or the returned list, so the embedding
returns the list of routed target ids together with the list of keys the
method returns. -/
def put_key (REPLICATION_COUNT : Nat) (key : String) : List Int × List String :=
  (List.range REPLICATION_COUNT).foldl
    (fun acc replica =>
      let numeric_id : Int := (hexToNat key : Int) + replica
      (acc.1 ++ [numeric_id], acc.2 ++ [key]))
    ([], [])

/-- The local names that are bound in the body of `Node.find_job` before
its line `numeric_id = int(dht_key, 16)` executes.  `dht_key` is never
assigned anywhere in `find_job`. -/
def find_jobLocals : List String := ["self", "job_hash", "ttl", "is_replica", "search_cnt", "idx"]

/-- Python name resolution: reading a name that is a local of the
enclosing function but has not been bound raises `NameError` (for a name
that is assigned nowhere in the function, as here, the lookup simply
finds no binding). -/
def pyLoadName (locals : List String) (name : String) : Except String Unit :=
  if name ∈ locals then Except.ok ()
  else Except.error ("NameError: name " ++ name ++ " is not defined")

/-- Embedding of `Node.find_job(job_hash, ttl, is_replica)`: after the `ttl <= 0`
guard the loop `for idx in range(search_cnt)` starts (its range is never
empty since `search_cnt >= 1`), and the first statement of its body
evaluates `int(dht_key, 16)` where `dht_key` is an unbound name; nothing
past that point can execute. -/
def find_job (REPLICATION_COUNT : Nat) (job_hash : String) (ttl : Int)
    (is_replica : Bool) : Except String (Option String) :=
  if ttl ≤ 0 then Except.ok none
  else
    let search_cnt := if is_replica then 1 else REPLICATION_COUNT + 1
    if search_cnt = 0 then Except.ok none
    else
      match pyLoadName find_jobLocals "dht_key" with
      | Except.error e => Except.error e
      | Except.ok _ =>
          -- unreachable: the name lookup above always fails
          Except.ok (some job_hash)

/-- The function `helpers.gen_finger` takes three required positional parameters
`(addr, ring_sz, keysize)`. -/
def gen_fingerParamCount : Nat := 3

/-- The fallback in `Node.stabilize` calls
`gen_finger(self._addr, self.key_sz)` with two positional arguments. -/
def stabilizeFallbackArgCount : Nat := 2

/-- The `except` branch of `Node.stabilize`, entered when an RPC to the
successor fails: drop `successors[0]`; if the list became empty, append
`gen_finger(self._addr, self.key_sz)` (a call that raises `TypeError`,
since `gen_finger` needs three positional arguments) and take the head
as successor, otherwise promote the new head.  The `TypeError` is raised
inside the handler, so it escapes the `try` and aborts the stabilize
task. -/
def stabilizeOnRpcFailure (st : NodeState) : Except String NodeState :=
  match st.successors.drop 1 with
  | [] =>
      if stabilizeFallbackArgCount = gen_fingerParamCount then
        let f := gen_finger st.addr st.ring_sz st.key_sz
        Except.ok { st with successors := [f], successor := some f }
      else
        Except.error "TypeError: gen_finger missing 1 required positional argument: keysize"
  | s :: rest =>
      Except.ok { st with successors := s :: rest, successor := some s }

/-- The collaborators of `Node.find_key` that live outside the loop being
verified: the local store lookup `self._find_key`, the routing call
`self.find_successor` (its `(found, node)` outcome), and the remote
`rpc_get_key` (which yields `None` on any failure). -/
structure FindKeyEnv where
  localGet : String → Option String
  route : Int → Option Finger
  remoteGet : Finger → String → Int → Bool → Option String

/-- The loop of `Node.find_key`, translated statement by statement; the
first component is the value the method returns, the second is the list
of `numeric_id` targets the iterations computed (one per executed
iteration, in order).  `remaining` is the number of loop iterations left
(`search_cnt` at the first call), `idx` the Python loop index, `key` the
current value of the mutable `key` variable: each iteration recomputes
`dht_key = generate_id(key)`, returns a truthy local hit, otherwise
routes and asks the remote with `ttl - 1`; on `continue` after a failed
route the `key = dht_key` statement is skipped, after a falsy remote
reply it executes, so the next iteration hashes the previous digest. -/
def find_keyGo (env : FindKeyEnv) (key_sz : Nat) (ttl : Int) :
    Nat → Nat → String → Option String × List Int
  | 0, _, _ => (none, [])
  | remaining + 1, idx, key =>
      let dht_key := generate_id key key_sz
      let numeric_id : Int := (hexToNat dht_key : Int)
      match env.localGet dht_key with
      | some v => (some v, [numeric_id])
      | none =>
          match env.route numeric_id with
          | none =>
              let r := find_keyGo env key_sz ttl remaining (idx + 1) key
              (r.1, numeric_id :: r.2)
          | some node =>
              match env.remoteGet node key (ttl - 1) (decide (idx > 0)) with
              | some v =>
                  if v ≠ "" then (some v, [numeric_id])
                  else
                    let r := find_keyGo env key_sz ttl remaining (idx + 1) dht_key
                    (r.1, numeric_id :: r.2)
              | none =>
                  let r := find_keyGo env key_sz ttl remaining (idx + 1) dht_key
                  (r.1, numeric_id :: r.2)

/-- Embedding of `Node.find_key(key, ttl, is_replica)`: `None` when the hop budget is
exhausted, otherwise `search_cnt` loop iterations
(`1 if is_replica else self._REPLICATION_COUNT + 1`). -/
def find_key (env : FindKeyEnv) (REPLICATION_COUNT key_sz : Nat) (key : String)
    (ttl : Int) (is_replica : Bool) : Option String × List Int :=
  if ttl ≤ 0 then (none, [])
  else find_keyGo env key_sz ttl (if is_replica then 1 else REPLICATION_COUNT + 1) 0 key

/-- Embedding of `Node.get_all(node_id)`: hand over every stored key in the open arc
`(predecessor, node_id)` (via `Storage.get_keys`) and delete exactly the
returned keys; when there is no predecessor or `node_id` is not strictly
between predecessor and this node, return two empty lists and keep the
store. -/
def get_all (st : NodeState) (now : Int) (node_id : Int) :
    (List String × List String) × NodeState :=
  match st.predecessor with
  | none => (([], []), st)
  | some p =>
      if between node_id p.numeric_id st.numeric_id false false st.ring_sz then
        let kv := Storage.get_keys st.store st.secret now st.ring_sz p.numeric_id node_id
        (kv, { st with store := Storage.del_keys st.store kv.1 })
      else (([], []), st)

end Node

/-!  api/job.py and the worker loop of node.py  -/

/-- The slice of `api.job.Job` the worker inspects: its id, content hash,
status and result.  Serialization to the JSON string held in the store is
abstracted by the `deser`/`ser` parameters of `workerTick` below. -/
structure Job where
  job_id : String
  hash : String
  status : String
  result : Option String
deriving DecidableEq, Repr

/-- One pass of the `while True` body of `Node.worker`.
`Storage.iterjobs` pops (removes and yields) every stored entry, so the
pass starts from an emptied store; each drained `(key, serial)` is
deserialized and dispatched on its status: `"completed"` hits a bare
`continue` (nothing is written back), `"pending"` is re-persisted as
`"running"`, executed, and re-persisted as `"completed"` (both through
`Storage.put_key` with its default ttl of 3600); any other status falls
through both branches and is likewise not written back.  `deser` and
`ser` stand for `Job.deserialize` / `Job.serialize`. -/
def workerTick (deser : String → Job) (ser : Job → String) (secret : String)
    (now : Int) (store : List StoreEntry) : List StoreEntry :=
  store.foldl
    (fun acc e =>
      let job := deser e.value
      if job.status = "completed" then acc
      else if job.status = "pending" then
        let running := { job with status := "running" }
        let acc := (Storage.put_key acc secret now e.key (ser running) 3600).2
        let completed := { running with status := "completed" }
        (Storage.put_key acc secret now e.key (ser completed) 3600).2
      else acc)
    []

/-!  Claims  -/

/-- Claim C1, counterexample: with equal endpoints and both flags
inclusive the arc of the spec is the whole ring, so `between` would have to
return true at `x = a`; the code returns false (its boundary adjustments
are skipped whenever `left == right`). -/
theorem between_equal_endpoints_counterexample :
    between 5 5 5 true true 256 = false := by decide

/-- Claim C1, amended: when the endpoints are equal, `between` ignores
both inclusivity flags and returns true exactly for `x ≠ a` — the arc is
the whole ring minus the shared endpoint, for all four flag
combinations, never the full ring. -/
theorem between_equal_endpoints_ignores_inclusivity
    (x a : Int) (inclL inclR : Bool) (N : Int) :
    between x a a inclL inclR N = decide (x ≠ a) := by
  unfold between
  have hL : ¬ (a ≠ a ∧ inclL = true) := by simp
  have hR : ¬ (a ≠ a ∧ inclR = true) := by simp
  rw [if_neg hL, if_neg hR, if_neg (lt_irrefl a)]
  rcases lt_trichotomy x a with h | h | h
  · simp [h, ne_of_lt h]
  · simp [h]
  · simp [h, ne_of_gt h, le_of_lt h]

/-- Claim C2: with the default `_REPLICATION_COUNT = 1`, the loop of
`Node.put_key` is `for replica in range(1)` — a single iteration — so
exactly one target id (`int(key, 16) + 0`) is routed and the returned
list holds one key, not the `R + 1 = 2` the spec requires. -/
theorem put_key_single_copy_at_default :
    Node.put_key 1 "00ff" = ([255], ["00ff"]) ∧
    (Node.put_key 1 "00ff").2.length = 1 := by decide

/-- Claim C3: an entry whose stored value is the empty string is returned
by `Storage.get_key` even though its tag does not verify — the guard
`if value:` is false for `""`, so the MAC comparison is skipped and the
raw value is returned, where the spec (I5) demands rejection. -/
theorem get_key_skips_mac_on_empty_value :
    Storage.get_key [⟨"0b", "", "deadbeef", 100⟩] "aa" 0 "0b" = some "" ∧
    "deadbeef" ≠ Storage.make_digest "aa" "" := by
  exact ⟨rfl, by decide⟩

/-- Claim C4: the drain loop of the worker pops every entry and hits a bare
`continue` for a deserialized status of `"completed"`, so a store
holding one completed job is empty after a single worker pass — the job
is not re-persisted, contrary to the claim. -/
theorem worker_drops_completed_job (deser : String → Job) (ser : Job → String)
    (secret : String) (now : Int) (e : StoreEntry)
    (h : (deser e.value).status = "completed") :
    workerTick deser ser secret now [e] = [] := by
  simp [workerTick, h]

/-- Claim C4, witness: a concrete store with one completed job is left
empty by one worker pass. -/
theorem worker_drops_completed_job_witness :
    workerTick (fun _ => { job_id := "1", hash := "81fe", status := "completed", result := none })
      (fun j => j.status) "aa" 0 [⟨"81fe", "x", "t", 100⟩] = [] :=
  worker_drops_completed_job _ _ _ _ _ rfl

/-- The environment under which every probe of `Node.find_key` misses:
the local store has no keys, routing always resolves to some node, and
every remote call fails (returns the neutral `None`). -/
def findKeyEnvAllMiss : Node.FindKeyEnv :=
  { localGet := fun _ => none,
    route := fun _ => some ⟨"b:1", "0bb1", 2993⟩,
    remoteGet := fun _ _ _ _ => none }

/-- Claim C5: for the key "abcd" (with every probe missing) `find_key`
performs two probes; the first targets `int(generate_id("abcd"), 16) =
0x81fe = 33278`, but the second targets
`int(generate_id(generate_id("abcd")), 16) = 0x8b52 = 35666` — a re-hash
of the key of the previous iteration, not the replica position `33278 + 1`
required by the claim. -/
theorem find_key_rehashes_second_probe :
    (Node.find_key findKeyEnvAllMiss 1 4 "abcd" 4 false).2 =
      [(hexToNat (generate_id "abcd" 4) : Int),
       (hexToNat (generate_id (generate_id "abcd" 4) 4) : Int)] ∧
    (hexToNat (generate_id "abcd" 4) : Int) = 33278 ∧
    (hexToNat (generate_id (generate_id "abcd" 4) 4) : Int) = 35666 ∧
    (hexToNat (generate_id (generate_id "abcd" 4) 4) : Int) ≠
      (hexToNat (generate_id "abcd" 4) : Int) + 1 := by
  refine ⟨rfl, by decide, by decide, by decide⟩

/-- Claim C6: `Node.find_job` evaluates `int(dht_key, 16)` as the first
statement of its (always entered) loop body, and `dht_key` is bound
nowhere in the function, so every call with `ttl > 0` raises `NameError`
instead of answering — even when the job is stored locally. -/
theorem find_job_raises_name_error :
    Node.find_job 1 "81fe" 8 false =
      Except.error "NameError: name dht_key is not defined" := by rfl

/-- Claim C7: when the successor RPC fails and dropping `successors[0]`
leaves the list empty, the fallback executes
`gen_finger(self._addr, self.key_sz)` — two positional arguments for a
three-parameter function — so the handler raises `TypeError` instead of
falling back to self, and the exception escapes the `try` block. -/
theorem stabilize_fallback_raises_type_error :
    Node.stabilizeOnRpcFailure
      { addr := "a:1", numeric_id := 170, ring_sz := 65536, key_sz := 4,
        secret := "00aa", predecessor := none,
        successor := some ⟨"b:1", "0bb1", 2993⟩,
        successors := [⟨"b:1", "0bb1", 2993⟩], fingers := [], store := [] } =
      Except.error "TypeError: gen_finger missing 1 required positional argument: keysize" := by
  rfl

/-- Claim C10: `Node.notify` writes at most the predecessor field — the
address, numeric id, successor, successor list, finger table and local
store are all unchanged, whether or not the sender is adopted. -/
theorem notify_touches_only_predecessor (st : NodeState) (n : Finger) :
    (Node.notify st n).addr = st.addr ∧
    (Node.notify st n).numeric_id = st.numeric_id ∧
    (Node.notify st n).successor = st.successor ∧
    (Node.notify st n).successors = st.successors ∧
    (Node.notify st n).fingers = st.fingers ∧
    (Node.notify st n).store = st.store := by
  rcases st with ⟨addr, nid, rs, ks, sec, pred, succ, succs, fings, store⟩
  cases pred
  · simp [Node.notify]
  · simp only [Node.notify]
    split <;> simp

/-- Claim C9: storing a value with `Storage.put_key` and reading it back
with `Storage.get_key` on the same store, with the same secret, before
the deadline of the entry, returns exactly the stored value (the freshly
written tag is the digest of the value, so verification succeeds; an
empty value is returned through the unchecked branch). -/
theorem storage_put_get_roundtrip (store : List StoreEntry)
    (secret key value : String) (ttl now readTime : Int)
    (h : readTime < now + ttl) :
    Storage.get_key (Storage.put_key store secret now key value ttl).2
      secret readTime key = some value := by
  by_cases hv : value = "" <;>
    simp [Storage.put_key, Storage.get_key, cacheSet, cacheGet, List.find?, h, hv]

/-- Claim C9, witness: the round trip evaluated on a concrete store,
secret, key and value. -/
theorem storage_put_get_roundtrip_witness :
    (3 : Int) < 0 + 10 ∧
    Storage.get_key (Storage.put_key [] "aa" 0 "0b" "hello" 10).2
      "aa" 3 "0b" = some "hello" :=
  ⟨by decide, storage_put_get_roundtrip [] "aa" "0b" "hello" 10 0 3 (by decide)⟩

/-- An id inside the open arc tested by `between` with both flags
exclusive is never equal to the right endpoint. -/
theorem between_open_ne_right {x a b N : Int}
    (h : between x a b false false N = true) : x ≠ b := by
  unfold between at h
  simp only [Bool.false_eq_true, and_false, if_false] at h
  split at h <;> simp only [decide_eq_true_eq] at h <;> omega

/-- The fold inside `Storage.get_keys` appends, in iteration order, the
keys and the looked-up values of exactly those entries that pass the arc
test and whose `get_key` lookup yields a truthy value. -/
theorem get_keys_foldl_eq (store : List StoreEntry) (secret : String)
    (now ring_sz left right : Int) (l : List StoreEntry)
    (acc : List String × List String) :
    l.foldl
      (fun acc e =>
        if between (hexToNat e.key : Int) left right false false ring_sz then
          match Storage.get_key store secret now e.key with
          | some v => if v ≠ "" then (acc.1 ++ [e.key], acc.2 ++ [v]) else acc
          | none => acc
        else acc) acc =
      (acc.1 ++ (l.filter (fun e =>
          between (hexToNat e.key : Int) left right false false ring_sz &&
          decide ((Storage.get_key store secret now e.key).getD "" ≠ ""))).map
          (fun e => e.key),
       acc.2 ++ (l.filter (fun e =>
          between (hexToNat e.key : Int) left right false false ring_sz &&
          decide ((Storage.get_key store secret now e.key).getD "" ≠ ""))).map
          (fun e => (Storage.get_key store secret now e.key).getD "")) := by
  induction l generalizing acc with
  | nil => simp
  | cons e l ih =>
      rw [List.foldl_cons, ih]
      by_cases hb : between (hexToNat e.key : Int) left right false false ring_sz = true
      · cases hk : Storage.get_key store secret now e.key with
        | none => simp [List.filter_cons, hb, hk]
        | some v =>
            by_cases hv : v = ""
            · simp [List.filter_cons, hb, hk, hv]
            · simp [List.filter_cons, hb, hk, hv]
      · simp [List.filter_cons, hb]

/-- The method `Storage.get_keys` returns the keys and values of exactly the valid
entries in the open arc, in store order. -/
theorem get_keys_eq (store : List StoreEntry) (secret : String)
    (now ring_sz left right : Int) :
    Storage.get_keys store secret now ring_sz left right =
      ((store.filter (fun e =>
          between (hexToNat e.key : Int) left right false false ring_sz &&
          decide ((Storage.get_key store secret now e.key).getD "" ≠ ""))).map
          (fun e => e.key),
       (store.filter (fun e =>
          between (hexToNat e.key : Int) left right false false ring_sz &&
          decide ((Storage.get_key store secret now e.key).getD "" ≠ ""))).map
          (fun e => (Storage.get_key store secret now e.key).getD "")) := by
  simpa [Storage.get_keys] using
    get_keys_foldl_eq store secret now ring_sz left right store ([], [])

/-- The method `Storage.del_keys` removes exactly the entries whose key occurs in
the given list. -/
theorem del_keys_eq (keys : List String) (store : List StoreEntry) :
    Storage.del_keys store keys =
      store.filter (fun e => decide (e.key ∉ keys)) := by
  induction keys generalizing store with
  | nil => simp [Storage.del_keys]
  | cons k ks ih =>
      have h1 : Storage.del_keys store (k :: ks) =
          Storage.del_keys (cacheDelete store k) ks := rfl
      rw [h1, ih, cacheDelete, List.filter_filter]
      refine List.filter_congr ?_
      intro e _
      by_cases h1 : e.key ∈ ks <;> by_cases h2 : e.key = k <;>
        simp [h1, h2, List.mem_cons]

/-- A node state whose store holds one valid entry whose numeric key is
exactly the `node_id` that `get_all` will be asked for. -/
def getAllDemoState : NodeState :=
  { addr := "n:1", numeric_id := 100, ring_sz := 65536, key_sz := 4,
    secret := "00aa", predecessor := some ⟨"p:1", "000a", 10⟩,
    successor := none, successors := [], fingers := [],
    store := [⟨"0032", "migrate-me", Storage.make_digest "00aa" "migrate-me", 100⟩] }

/-- Claim C8, counterexample: the stored key "0032" has numeric value 50,
is unexpired and MAC-valid, and `get_all(50)` is called with 50 strictly
between the predecessor (10) and the node (100) — yet the call returns
two empty lists and deletes nothing, because `Storage.get_keys` tests
the OPEN arc `(10, 50)` and excludes the right endpoint that the claimed
half-open arc `(p, node_id]` includes. -/
theorem get_all_excludes_key_at_node_id :
    Node.get_all getAllDemoState 0 50 = (([], []), getAllDemoState) ∧
    (hexToNat "0032" : Int) = 50 ∧
    Storage.get_key getAllDemoState.store "00aa" 0 "0032" = some "migrate-me" := by
  exact ⟨rfl, by decide, rfl⟩

/-- Claim C8, amended: for a node with predecessor `p` and a `node_id`
strictly inside `(p.id, self.id)`, `get_all(node_id)` returns exactly
the stored entries that are valid (unexpired, truthy, MAC-verified) and
whose numeric key lies in the OPEN arc `(p.id, node_id)` — an entry
whose numeric key equals `node_id` is never returned — and it deletes
from the store exactly the returned keys. -/
theorem get_all_open_arc_characterization
    (st : NodeState) (p : Finger) (now node_id : Int)
    (hp : st.predecessor = some p)
    (hg : between node_id p.numeric_id st.numeric_id false false st.ring_sz = true) :
    (Node.get_all st now node_id).1.1 =
      (st.store.filter (fun e =>
        between (hexToNat e.key : Int) p.numeric_id node_id false false st.ring_sz &&
        decide ((Storage.get_key st.store st.secret now e.key).getD "" ≠ ""))).map
        (fun e => e.key) ∧
    (Node.get_all st now node_id).1.2 =
      (st.store.filter (fun e =>
        between (hexToNat e.key : Int) p.numeric_id node_id false false st.ring_sz &&
        decide ((Storage.get_key st.store st.secret now e.key).getD "" ≠ ""))).map
        (fun e => (Storage.get_key st.store st.secret now e.key).getD "") ∧
    (Node.get_all st now node_id).2.store =
      st.store.filter (fun e => decide (e.key ∉ (Node.get_all st now node_id).1.1)) ∧
    (∀ e ∈ st.store, (hexToNat e.key : Int) = node_id →
        e.key ∉ (Node.get_all st now node_id).1.1) := by
  have hga : Node.get_all st now node_id =
      (Storage.get_keys st.store st.secret now st.ring_sz p.numeric_id node_id,
       { st with store := Storage.del_keys st.store (Storage.get_keys st.store st.secret now st.ring_sz p.numeric_id node_id).1 }) := by
    simp [Node.get_all, hp, hg]
  rw [hga, get_keys_eq]
  refine ⟨rfl, rfl, by rw [del_keys_eq], ?_⟩
  intro e _ hekey hmem
  rcases List.mem_map.mp hmem with ⟨e', he'mem, he'key⟩
  have hpred := (List.mem_filter.mp he'mem).2
  have hbet : between (hexToNat e'.key : Int) p.numeric_id node_id false false st.ring_sz = true := by
    rw [Bool.and_eq_true] at hpred
    exact hpred.1
  have : (hexToNat e'.key : Int) ≠ node_id := between_open_ne_right hbet
  rw [he'key, hekey] at this
  exact this rfl

/-- A node state whose store holds one valid entry strictly inside the
handed-over arc. -/
def getAllWitnessState : NodeState :=
  { addr := "n:1", numeric_id := 100, ring_sz := 65536, key_sz := 4,
    secret := "00aa", predecessor := some ⟨"p:1", "000a", 10⟩,
    successor := none, successors := [], fingers := [],
    store := [⟨"0014", "v", Storage.make_digest "00aa" "v", 100⟩] }

/-- Claim C8, witness: on a concrete node the amended characterization
hands over the stored key "0014" (numeric 20, inside the open arc
`(10, 50)`) together with its value and removes it from the store. -/
theorem get_all_open_arc_characterization_witness :
    getAllWitnessState.predecessor = some ⟨"p:1", "000a", 10⟩ ∧
    between 50 10 100 false false 65536 = true ∧
    (Node.get_all getAllWitnessState 0 50).1.1 = ["0014"] ∧
    (Node.get_all getAllWitnessState 0 50).1.2 = ["v"] ∧
    (Node.get_all getAllWitnessState 0 50).2.store = [] :=
  ⟨rfl, by decide,
   (get_all_open_arc_characterization getAllWitnessState ⟨"p:1", "000a", 10⟩ 0 50
      rfl (by decide)).1,
   (get_all_open_arc_characterization getAllWitnessState ⟨"p:1", "000a", 10⟩ 0 50
      rfl (by decide)).2.1,
   (get_all_open_arc_characterization getAllWitnessState ⟨"p:1", "000a", 10⟩ 0 50
      rfl (by decide)).2.2.1⟩
